import Mathlib

/-!
Shallow embedding of `src/Marlin/src/gcode/temperature/M199.cpp`
(`GcodeSuite::M199`): the M199 "wait for PINDA probe temperature" command.

Modelling choices:
* `millis_t` values are `Nat` taken modulo `2^32` (`M32`); the Marlin macro
  `ELAPSED(NOW, SOON)` is `(int32_t)(NOW - SOON) >= 0` on `uint32_t`, i.e.
  the wrapped difference lies below `2^31`.
* The probe temperature `float` readings are modelled as rationals `ℚ`
  (every float value is a rational, and the code only compares them).
* The environment is a pair of streams: `tempStream i` is the value returned
  by the `i`-th in-loop call to `thermalManager.degPinda()`, and
  `timeStream i` the value returned by the `i`-th in-loop call to `millis()`
  (the `now = millis()` near the end of each loop body).  The two `millis()`
  calls made before the loop (timeout setup and loop entry) are the
  parameters `setupNow` and `entryNow`.
* Side effects (serial echoes, LCD updates, `idle()`,
  `reset_stepper_timeout()`, `setTargetPinda`) are recorded as an event
  trace; the do-while loop is a fuel-indexed recursion that also returns the
  number of completed loop iterations.
-/

/-- The modulus of `millis_t` (uint32) arithmetic, 2^32. -/
def M32 : Nat := 4294967296

/-- Marlin `ELAPSED(NOW, SOON)`: true iff `(int32_t)(NOW - SOON) >= 0`,
i.e. the uint32 wrapped difference `NOW - SOON` is below `2^31`. -/
def elapsed (now soon : Nat) : Bool :=
  decide ((now + (M32 - soon % M32)) % M32 < 2147483648)

/-- Observable side effects of one `M199` invocation, in program order. -/
inductive Event where
  /-- Call `thermalManager.setTargetPinda(t)` -/
  | SetTargetPinda (t : Int)
  /-- the initial serial block "Wait for sensor (cool down|warm up) to target temperature: t" -/
  | EchoWaitLine (cooling : Bool) (target : Int)
  /-- the periodic status report: `print_heater_states` + LCD status line -/
  | Report
  /-- Call `idle()`, the cooperative scheduler yield -/
  | Yield
  /-- Call `reset_stepper_timeout()` -/
  | WatchdogReset
  /-- the serial diagnostic "TIMEOUT on sensor (cool-down|warm-up)" -/
  | TimeoutDiag (msg : String)
  /-- Call `ui.reset_status()` -/
  | ResetStatus
  deriving DecidableEq, Repr

/-- How one `M199` invocation ended. -/
inductive M199Outcome where
  /-- DRYRUN active or no `S` parameter: the whole body is skipped -/
  | skipped
  /-- Resolution by `get_target_extruder_from_command()` failed: early return -/
  | aborted
  /-- the do-while condition became false: target reached -/
  | completed
  /-- the timeout `break` fired -/
  | timedOut
  /-- the fuel ran out before the loop exited (loop still running) -/
  | fuelOut
  deriving DecidableEq, Repr

/-- Result of a (partial) run: outcome, event trace, completed iterations. -/
structure RunOut where
  outcome : M199Outcome
  trace : List Event
  iters : Nat
  deriving DecidableEq, Repr

/-- Number of occurrences of event `e` in a trace. -/
def countEv (e : Event) : List Event → Nat
  | [] => 0
  | x :: xs => (if x = e then 1 else 0) + countEv e xs

/-- The do-while condition at line 109:
`((!is_pinda_cooling) && (pinda_temp < target_temp)) || (is_pinda_cooling && (pinda_temp > target_temp))`. -/
def continueCond (cooling : Bool) (temp : ℚ) (target : Int) : Bool :=
  (!cooling && decide (temp < (target : ℚ))) || (cooling && decide ((target : ℚ) < temp))

/-- Line 85: when the report fires, `next_serial_status_ms = now + 1000UL`
(from the loop's current `now`, not from the previous scheduled tick). -/
def nextReportUpdate (now next : Nat) : Nat :=
  if elapsed now next then (now + 1000) % M32 else next

/-- Lines 100-107: the timeout diagnostic names the direction. -/
def timeoutMessage (cooling : Bool) : String :=
  if cooling then "cool-down" else "warm-up"

/-- Static configuration of the poll loop (fixed before the loop starts). -/
structure LoopCfg where
  cooling : Bool
  target : Int
  /-- absolute deadline; `0` means "no timeout armed" -/
  deadline : Nat
  tempStream : Nat → ℚ
  timeStream : Nat → Nat

/-- The do-while loop of `M199` (lines 79-109).  Arguments after the fuel:
stream index `i`, the loop variable `now`, and `next_serial_status_ms`.
Each iteration: read `pinda_temp`; maybe report and re-arm the report timer;
`idle()`; `reset_stepper_timeout()`; `now = millis()`; timeout `break`;
while-condition check. -/
def pollLoop (cfg : LoopCfg) : Nat → Nat → Nat → Nat → RunOut
  | 0, _, _, _ => ⟨.fuelOut, [], 0⟩
  | fuel + 1, i, now, next =>
    if (cfg.deadline != 0) && elapsed (cfg.timeStream i) cfg.deadline then
      ⟨.timedOut,
       (if elapsed now next then [Event.Report] else []) ++
         [.Yield, .WatchdogReset, .TimeoutDiag (timeoutMessage cfg.cooling)],
       1⟩
    else if continueCond cfg.cooling (cfg.tempStream i) cfg.target then
      ⟨(pollLoop cfg fuel (i + 1) (cfg.timeStream i) (nextReportUpdate now next)).outcome,
       (if elapsed now next then [Event.Report] else []) ++
         [.Yield, .WatchdogReset] ++
         (pollLoop cfg fuel (i + 1) (cfg.timeStream i) (nextReportUpdate now next)).trace,
       (pollLoop cfg fuel (i + 1) (cfg.timeStream i) (nextReportUpdate now next)).iters + 1⟩
    else
      ⟨.completed,
       (if elapsed now next then [Event.Report] else []) ++ [.Yield, .WatchdogReset],
       1⟩

/-- Parameters and ambient state of one `M199` invocation. -/
structure M199Params where
  /-- The `S` target temperature, if given (`parser.seenval('S')`) -/
  S : Option Int
  /-- Flag `parser.seen('W')` -/
  seenW : Bool
  /-- Flag `parser.seen('C')` -/
  seenC : Bool
  /-- The `T` timeout in seconds, if given (`parser.seenval('T')`) -/
  T : Option Nat
  /-- Mode flag `DEBUGGING(DRYRUN)` -/
  dryrun : Bool
  /-- Ambient setpoint `thermalManager.degTargetBed()` -/
  bedTarget : Int
  /-- Ambient setpoint `thermalManager.degTargetHotend(0)` -/
  hotendTarget : Int
  /-- Whether `get_target_extruder_from_command() >= 0` -/
  extruderValid : Bool
  /-- Value of `millis()` at timeout setup (line 58) -/
  setupNow : Nat
  /-- Value of `millis()` at loop entry (line 74) -/
  entryNow : Nat

/-- Lines 50-52: `is_pinda_cooling = !parser.seen('W') &&
(((degTargetBed() == 0) && (degTargetHotend(0) == 0)) || parser.seen('C'))`. -/
def is_pinda_cooling (p : M199Params) : Bool :=
  !p.seenW &&
    ((decide (p.bedTarget = 0) && decide (p.hotendTarget = 0)) || p.seenC)

/-- Lines 55-58: `timeout = 0; if (parser.seenval('T')) timeout = millis() +
value_millis_from_seconds();` in uint32 arithmetic. -/
def computeDeadline (p : M199Params) : Nat :=
  match p.T with
  | none => 0
  | some secs => (p.setupNow + secs * 1000) % M32

/-- Events emitted between the `S` check and the loop: the "Wait for
sensor ..." serial block (lines 68-72) and `setTargetPinda(target_temp)`
(line 77). -/
def preEvents (cooling : Bool) (target : Int) : List Event :=
  [.EchoWaitLine cooling target, .SetTargetPinda target]

/-- Lines 111-112: after the do-while exits (either exit path),
`ui.reset_status(); thermalManager.setTargetPinda(0);`.  When the fuel ran
out, the loop has not exited and the epilogue has not run. -/
def finishRun (r : RunOut) (cooling : Bool) (target : Int) : RunOut :=
  if r.outcome = .fuelOut then ⟨.fuelOut, preEvents cooling target ++ r.trace, r.iters⟩
  else ⟨r.outcome, preEvents cooling target ++ r.trace ++ [.ResetStatus, .SetTargetPinda 0], r.iters⟩

/-- The body of `M199` once `S` was seen and the target extruder resolved. -/
def M199core (p : M199Params) (target : Int) (tempStream : Nat → ℚ)
    (timeStream : Nat → Nat) (fuel : Nat) : RunOut :=
  finishRun
    (pollLoop ⟨is_pinda_cooling p, target, computeDeadline p, tempStream, timeStream⟩
      fuel 0 p.entryNow ((p.entryNow + 1000) % M32))
    (is_pinda_cooling p) target

/-- The command `GcodeSuite::M199` (lines 44-113): DRYRUN short-circuit, `S` guard,
target-extruder abort, then the wait body. -/
def M199 (p : M199Params) (tempStream : Nat → ℚ) (timeStream : Nat → Nat)
    (fuel : Nat) : RunOut :=
  if p.dryrun then ⟨.skipped, [], 0⟩
  else
    match p.S with
    | none => ⟨.skipped, [], 0⟩
    | some target =>
      if p.extruderValid then M199core p target tempStream timeStream fuel
      else ⟨.aborted, [], 0⟩

/-! Spec-side definitions (from the spec's words, for refinement claims). -/

/-- Spec §4.3 step 6 exit predicate: `Completed` when
`(Direction == Warming AND current_reading >= target) OR
(Direction == Cooling AND current_reading <= target)`. -/
def completedPred (cooling : Bool) (temp : ℚ) (target : Int) : Bool :=
  (!cooling && decide ((target : ℚ) ≤ temp)) || (cooling && decide (temp ≤ (target : ℚ)))

/-- Spec §4.1 Direction Resolver, as the spec's precedence chain:
force_warm → Warming; else force_cool → Cooling; else both ambient
setpoints zero → Cooling; else Warming.  (`true` = Cooling.) -/
def specCooling (p : M199Params) : Bool :=
  if p.seenW then false
  else if p.seenC then true
  else if p.bedTarget = 0 ∧ p.hotendTarget = 0 then true
  else false

/-! General lemmas about the embedding. -/

theorem countEv_append (e : Event) (a b : List Event) :
    countEv e (a ++ b) = countEv e a + countEv e b := by
  induction a with
  | nil => simp [countEv]
  | cons x xs ih => simp [countEv, ih]; omega

theorem pollLoop_counts (cfg : LoopCfg) :
    ∀ fuel i now next,
      countEv Event.Yield (pollLoop cfg fuel i now next).trace =
          (pollLoop cfg fuel i now next).iters ∧
        countEv Event.WatchdogReset (pollLoop cfg fuel i now next).trace =
          (pollLoop cfg fuel i now next).iters := by
  intro fuel
  induction fuel with
  | zero => intro i now next; simp [pollLoop, countEv]
  | succ fuel ih =>
    intro i now next
    have h := ih (i + 1) (cfg.timeStream i) (nextReportUpdate now next)
    simp only [pollLoop]
    split
    · cases helapsed : elapsed now next <;> simp [countEv_append, countEv, helapsed]
    · split
      · cases helapsed : elapsed now next <;>
          simp [countEv_append, countEv, helapsed, h.1, h.2] <;> omega
      · cases helapsed : elapsed now next <;> simp [countEv_append, countEv, helapsed]

theorem pollLoop_iters_zero (cfg : LoopCfg) (fuel i now next : Nat)
    (h : (pollLoop cfg fuel i now next).iters = 0) :
    (pollLoop cfg fuel i now next).outcome = .fuelOut := by
  cases fuel with
  | zero => rfl
  | succ fuel =>
    simp only [pollLoop] at h ⊢
    split at h
    · simp at h
    · split at h <;> simp at h

theorem pollLoop_no_deadline (cfg : LoopCfg) (hd : cfg.deadline = 0) :
    ∀ fuel i now next, (pollLoop cfg fuel i now next).outcome ≠ .timedOut := by
  intro fuel
  induction fuel with
  | zero => intro i now next; simp [pollLoop]
  | succ fuel ih =>
    intro i now next
    simp only [pollLoop, hd, bne_self_eq_false, Bool.false_and, Bool.false_eq_true,
      if_false]
    split
    · exact ih (i + 1) (cfg.timeStream i) (nextReportUpdate now next)
    · simp

theorem completedPred_eq_not_continueCond (cooling : Bool) (temp : ℚ) (target : Int) :
    completedPred cooling temp target = !continueCond cooling temp target := by
  cases cooling <;>
    simp only [completedPred, continueCond, Bool.not_true, Bool.not_false,
      Bool.false_and, Bool.true_and, Bool.or_false, Bool.false_or, Bool.not_or] <;>
    rw [← decide_not] <;> simp [not_lt]

theorem elapsed_self_plus_1000 (n : Nat) : elapsed n ((n + 1000) % M32) = false := by
  simp only [elapsed, M32, decide_eq_false_iff_not, not_lt]
  omega

theorem finishRun_outcome (r : RunOut) (c : Bool) (t : Int) :
    (finishRun r c t).outcome = r.outcome := by
  unfold finishRun
  split
  · rename_i h; exact h.symm
  · rfl

theorem finishRun_iters (r : RunOut) (c : Bool) (t : Int) :
    (finishRun r c t).iters = r.iters := by
  unfold finishRun
  split <;> rfl

theorem M199_eq_core (p : M199Params) (target : Int) (ts : Nat → ℚ) (ms : Nat → Nat)
    (fuel : Nat) (hdry : p.dryrun = false) (hS : p.S = some target)
    (hext : p.extruderValid = true) :
    M199 p ts ms fuel = M199core p target ts ms fuel := by
  simp [M199, hdry, hS, hext]

theorem pollLoop_timeout (cfg : LoopCfg) (hd : cfg.deadline ≠ 0)
    (hpred : ∀ j, continueCond cfg.cooling (cfg.tempStream j) cfg.target = true) :
    ∀ k fuel i now next, elapsed (cfg.timeStream (i + k)) cfg.deadline = true →
      k < fuel →
      (pollLoop cfg fuel i now next).outcome = .timedOut ∧
        (pollLoop cfg fuel i now next).iters ≤ k + 1 ∧
        countEv (Event.TimeoutDiag (timeoutMessage cfg.cooling))
            (pollLoop cfg fuel i now next).trace = 1 := by
  intro k
  induction k with
  | zero =>
    intro fuel i now next helap hk
    cases fuel with
    | zero => omega
    | succ fuel =>
      simp only [Nat.add_zero] at helap
      simp only [pollLoop]
      rw [if_pos (by simp [bne_iff_ne, hd, helap])]
      cases h2 : elapsed now next <;> simp [countEv_append, countEv, h2]
  | succ k ih =>
    intro fuel i now next helap hk
    cases fuel with
    | zero => omega
    | succ fuel =>
      simp only [pollLoop]
      by_cases htim : ((cfg.deadline != 0) && elapsed (cfg.timeStream i) cfg.deadline) = true
      · rw [if_pos htim]
        cases h2 : elapsed now next <;> simp [countEv_append, countEv, h2]
      · rw [if_neg htim, if_pos (hpred i)]
        have harg : i + 1 + k = i + (k + 1) := by omega
        have h := ih fuel (i + 1) (cfg.timeStream i) (nextReportUpdate now next)
          (by rw [harg]; exact helap) (by omega)
        cases h2 : elapsed now next <;>
          simp [countEv_append, countEv, h2, h.1, h.2.2] <;> omega

theorem pollLoop_no_report (cfg : LoopCfg) (next : Nat)
    (hms : ∀ j, elapsed (cfg.timeStream j) next = false) :
    ∀ fuel i now, elapsed now next = false →
      countEv Event.Report (pollLoop cfg fuel i now next).trace = 0 := by
  intro fuel
  induction fuel with
  | zero => intro i now h; simp [pollLoop, countEv]
  | succ fuel ih =>
    intro i now h
    have hnru : nextReportUpdate now next = next := by simp [nextReportUpdate, h]
    simp only [pollLoop]
    split
    · simp [countEv_append, countEv, h]
    · split
      · rw [hnru]
        simp [countEv_append, countEv, h, ih (i + 1) (cfg.timeStream i) (hms i)]
      · simp [countEv_append, countEv, h]

/-! Claim theorems. -/

/-- C1: over any run of `M199`, the trace contains exactly one scheduler
yield (`idle()`) and exactly one watchdog reset (`reset_stepper_timeout()`)
per loop iteration, including the final pass that detects timeout or
completion: the counts of both equal the iteration count (1:1 ratio). -/
theorem C1_yield_watchdog_per_iteration (p : M199Params) (ts : Nat → ℚ)
    (ms : Nat → Nat) (fuel : Nat) :
    countEv Event.Yield (M199 p ts ms fuel).trace = (M199 p ts ms fuel).iters ∧
      countEv Event.WatchdogReset (M199 p ts ms fuel).trace = (M199 p ts ms fuel).iters := by
  have hcore : ∀ target : Int,
      countEv Event.Yield (M199core p target ts ms fuel).trace =
          (M199core p target ts ms fuel).iters ∧
        countEv Event.WatchdogReset (M199core p target ts ms fuel).trace =
          (M199core p target ts ms fuel).iters := by
    intro target
    have h := pollLoop_counts ⟨is_pinda_cooling p, target, computeDeadline p, ts, ms⟩
      fuel 0 p.entryNow ((p.entryNow + 1000) % M32)
    unfold M199core finishRun
    split <;> simp [countEv_append, countEv, preEvents, h.1, h.2]
  unfold M199
  split
  · simp [countEv]
  · split
    · simp [countEv]
    · split
      · exact hcore _
      · simp [countEv]

/-- C2: whenever the wait exits the loop (Completed via the predicate or
TimedOut via the deadline break), the trace ends with `ui.reset_status()`
followed by `setTargetPinda(0)`: the setpoint committed at entry is
unconditionally cleared to the neutral value 0 on every exit path. -/
theorem C2_setpoint_cleared_on_exit (p : M199Params) (ts : Nat → ℚ)
    (ms : Nat → Nat) (fuel : Nat)
    (h : (M199 p ts ms fuel).outcome = .completed ∨
      (M199 p ts ms fuel).outcome = .timedOut) :
    ∃ l, (M199 p ts ms fuel).trace = l ++ [Event.ResetStatus, Event.SetTargetPinda 0] := by
  by_cases hdry : p.dryrun = true
  · simp [M199, hdry] at h
  · cases hS : p.S with
    | none => simp [M199, hdry, hS] at h
    | some target =>
      by_cases hext : p.extruderValid = true
      · rw [M199_eq_core p target ts ms fuel (by simpa using hdry) hS hext] at h ⊢
        unfold M199core at h ⊢
        rw [finishRun_outcome] at h
        unfold finishRun
        rw [if_neg (by rcases h with h | h <;> simp [h])]
        exact ⟨_, rfl⟩
      · simp [M199, hdry, hS, hext] at h

/-- C2 witness: a concrete warming run that completes on the first reading;
the trace ends with the status reset and `setTargetPinda(0)`. -/
theorem C2_setpoint_cleared_on_exit_witness :
    ((M199 ⟨some 50, true, false, none, false, 0, 0, true, 0, 0⟩
        (fun _ => 60) (fun _ => 5) 4).outcome = .completed ∨
      (M199 ⟨some 50, true, false, none, false, 0, 0, true, 0, 0⟩
        (fun _ => 60) (fun _ => 5) 4).outcome = .timedOut) ∧
    ∃ l, (M199 ⟨some 50, true, false, none, false, 0, 0, true, 0, 0⟩
        (fun _ => 60) (fun _ => 5) 4).trace =
      l ++ [Event.ResetStatus, Event.SetTargetPinda 0] :=
  ⟨Or.inl (by decide),
    C2_setpoint_cleared_on_exit ⟨some 50, true, false, none, false, 0, 0, true, 0, 0⟩
      (fun _ => 60) (fun _ => 5) 4 (Or.inl (by decide))⟩

/-- C3: provided the timeout break does not fire on this pass, the loop
exits in the Completed state on this very iteration exactly when the spec's
exit predicate holds of the current reading:
`(Warming ∧ reading ≥ target) ∨ (Cooling ∧ reading ≤ target)`; otherwise it
performs another iteration. -/
theorem C3_exit_predicate (cfg : LoopCfg) (fuel i now next : Nat)
    (hnt : ((cfg.deadline != 0) && elapsed (cfg.timeStream i) cfg.deadline) = false) :
    ((pollLoop cfg (fuel + 1) i now next).outcome = .completed ∧
        (pollLoop cfg (fuel + 1) i now next).iters = 1) ↔
      completedPred cfg.cooling (cfg.tempStream i) cfg.target = true := by
  rw [completedPred_eq_not_continueCond]
  simp only [pollLoop, hnt, Bool.false_eq_true, if_false]
  by_cases hc : continueCond cfg.cooling (cfg.tempStream i) cfg.target = true
  · rw [if_pos hc, hc]
    simp only [Bool.not_true, Bool.false_eq_true, iff_false]
    rintro ⟨ho, hi⟩
    have h0 : (pollLoop cfg fuel (i + 1) (cfg.timeStream i)
        (nextReportUpdate now next)).iters = 0 := by
      simpa using hi
    have hf := pollLoop_iters_zero cfg fuel (i + 1) (cfg.timeStream i)
      (nextReportUpdate now next) h0
    rw [hf] at ho
    simp at ho
  · rw [if_neg hc]
    rw [Bool.not_eq_true] at hc
    simp [hc]

/-- C3 witness: warming toward 50 with the probe at 60 and no deadline; the
loop completes on this iteration and the predicate holds. -/
theorem C3_exit_predicate_witness :
    ((((⟨false, 50, 0, fun _ => 60, fun _ => 5⟩ : LoopCfg).deadline != 0) &&
        elapsed ((⟨false, 50, 0, fun _ => 60, fun _ => 5⟩ : LoopCfg).timeStream 0)
          (⟨false, 50, 0, fun _ => 60, fun _ => 5⟩ : LoopCfg).deadline) = false) ∧
    (((pollLoop ⟨false, 50, 0, fun _ => 60, fun _ => 5⟩ (1 + 1) 0 0 1000).outcome =
          .completed ∧
        (pollLoop ⟨false, 50, 0, fun _ => 60, fun _ => 5⟩ (1 + 1) 0 0 1000).iters = 1) ↔
      completedPred (⟨false, 50, 0, fun _ => 60, fun _ => 5⟩ : LoopCfg).cooling
        ((⟨false, 50, 0, fun _ => 60, fun _ => 5⟩ : LoopCfg).tempStream 0) 50 = true) :=
  ⟨by decide, C3_exit_predicate ⟨false, 50, 0, fun _ => 60, fun _ => 5⟩ 1 0 0 1000 (by decide)⟩

/-- C4: the code's one-shot direction boolean
`!seen(W) && ((bed==0 && hotend0==0) || seen(C))` agrees with the spec's
precedence chain: force_warm → Warming; else force_cool → Cooling; else both
ambient setpoints zero → Cooling; else Warming. -/
theorem C4_direction_precedence (p : M199Params) :
    is_pinda_cooling p = specCooling p := by
  cases hW : p.seenW <;> cases hC : p.seenC <;>
    by_cases hB : p.bedTarget = 0 <;> by_cases hH : p.hotendTarget = 0 <;>
    simp [is_pinda_cooling, specCooling, hW, hC, hB, hH]

/-- C8: when the periodic report fires (`ELAPSED(now, next_serial_status_ms)`),
the next report time is re-armed to exactly the loop's current `now` plus the
fixed 1000 ms interval — and, whenever `now` differs from the previously
scheduled tick, that is not the previous tick plus 1000 ms (no catch-up). -/
theorem C8_report_rearm_from_now (now next : Nat) (h : elapsed now next = true) :
    nextReportUpdate now next = (now + 1000) % M32 ∧
      (now % M32 ≠ next % M32 → nextReportUpdate now next ≠ (next + 1000) % M32) := by
  refine ⟨by simp [nextReportUpdate, h], ?_⟩
  intro hne
  simp only [nextReportUpdate, h, if_true, M32] at hne ⊢
  omega

/-- C8 witness: a report firing at now = 2000 with the tick scheduled at
1500 re-arms to 3000, not 2500. -/
theorem C8_report_rearm_from_now_witness :
    elapsed 2000 1500 = true ∧
      (nextReportUpdate 2000 1500 = (2000 + 1000) % M32 ∧
        (2000 % M32 ≠ 1500 % M32 → nextReportUpdate 2000 1500 ≠ (1500 + 1000) % M32)) :=
  ⟨by decide, C8_report_rearm_from_now 2000 1500 (by decide)⟩

/-- C9: when the `S` parameter is absent the entire body is skipped: no
event at all is emitted (no setpoint write, no serial output, no yield, no
watchdog reset) and zero loop iterations are performed. -/
theorem C9_no_S_no_effect (p : M199Params) (ts : Nat → ℚ) (ms : Nat → Nat)
    (fuel : Nat) (hS : p.S = none) :
    M199 p ts ms fuel = ⟨.skipped, [], 0⟩ := by
  unfold M199
  split
  · rfl
  · simp [hS]

/-- C9 witness: a concrete invocation without `S` has the empty trace. -/
theorem C9_no_S_no_effect_witness :
    (⟨none, false, true, some 9, false, 40, 0, true, 3, 7⟩ : M199Params).S = none ∧
      M199 ⟨none, false, true, some 9, false, 40, 0, true, 3, 7⟩
        (fun _ => 25) (fun _ => 11) 6 = ⟨.skipped, [], 0⟩ :=
  ⟨rfl, C9_no_S_no_effect ⟨none, false, true, some 9, false, 40, 0, true, 3, 7⟩
    (fun _ => 25) (fun _ => 11) 6 rfl⟩

/-- C10: `next_serial_status_ms` is initialised to entry time + 1000 ms, so
if no in-loop `millis()` sample has reached entry + 1000 the trace contains
no periodic report: a wait satisfied within the first second emits no
periodic telemetry line. -/
theorem C10_no_report_in_first_second (p : M199Params) (ts : Nat → ℚ)
    (ms : Nat → Nat) (fuel : Nat)
    (hms : ∀ j, elapsed (ms j) ((p.entryNow + 1000) % M32) = false) :
    countEv Event.Report (M199 p ts ms fuel).trace = 0 := by
  unfold M199
  split
  · simp [countEv]
  · split
    · simp [countEv]
    · split
      · rename_i target heq hext
        unfold M199core finishRun
        have h := pollLoop_no_report
          ⟨is_pinda_cooling p, target, computeDeadline p, ts, ms⟩
          ((p.entryNow + 1000) % M32) hms fuel 0 p.entryNow
          (elapsed_self_plus_1000 p.entryNow)
        split <;> simp [countEv_append, countEv, preEvents, h]
      · simp [countEv]

/-- C10 witness: entry at 0, every in-loop time sample at 500 ms; the
completed run emits no report. -/
theorem C10_no_report_in_first_second_witness :
    (∀ j : Nat, elapsed ((fun _ => 500) j)
        (((⟨some 20, true, false, none, false, 0, 0, true, 0, 0⟩ : M199Params).entryNow +
          1000) % M32) = false) ∧
      countEv Event.Report
        (M199 ⟨some 20, true, false, none, false, 0, 0, true, 0, 0⟩
          (fun _ => 30) (fun _ => 500) 3).trace = 0 :=
  ⟨fun _ => (by decide : elapsed 500 ((0 + 1000) % M32) = false),
    C10_no_report_in_first_second ⟨some 20, true, false, none, false, 0, 0, true, 0, 0⟩
      (fun _ => 30) (fun _ => 500) 3
      (fun _ => (by decide : elapsed 500 ((0 + 1000) % M32) = false))⟩

/-- Example invocation for C5: `T0` given (zero-second timeout) with the
setup clock at 5000 ms; heaters on, so the wait is a warm-up that the probe
(stuck at 20) never satisfies. -/
def exZeroTParams : M199Params := ⟨some 100, false, false, some 0, false, 5, 5, true, 5000, 5000⟩

/-- C5 counterexample: with `timeout_duration` present and equal to zero the
wait is NOT infinite — the code arms `timeout = millis() + 0`, which is
non-zero whenever the clock is, and the loop exits TimedOut on its first
pass. -/
theorem C5_counterexample :
    exZeroTParams.T = some 0 ∧
      (M199 exZeroTParams (fun _ => 20) (fun _ => 6000) 8).outcome = .timedOut := by
  constructor
  · rfl
  · decide

/-- C5 (amended): when the `T` parameter is absent the `timeout` variable
stays 0 and the TimedOut transition can never fire: the loop can only exit
Completed (or keep running).  A present `T` of zero seconds instead arms the
deadline at the setup clock value and (for a non-zero clock) times out at
once. -/
theorem C5_no_timeout_when_T_absent (p : M199Params) (ts : Nat → ℚ)
    (ms : Nat → Nat) (fuel : Nat) (hT : p.T = none) :
    (M199 p ts ms fuel).outcome ≠ .timedOut := by
  unfold M199
  split
  · simp
  · split
    · simp
    · split
      · unfold M199core
        rw [finishRun_outcome]
        exact pollLoop_no_deadline _ (by simp [computeDeadline, hT]) fuel 0 _ _
      · simp

/-- C5 witness: a concrete invocation without `T` does not time out. -/
theorem C5_no_timeout_when_T_absent_witness :
    (⟨some 30, false, false, none, false, 0, 0, true, 0, 0⟩ : M199Params).T = none ∧
      (M199 ⟨some 30, false, false, none, false, 0, 0, true, 0, 0⟩
        (fun _ => 10) (fun _ => 7) 5).outcome ≠ .timedOut :=
  ⟨rfl, C5_no_timeout_when_T_absent ⟨some 30, false, false, none, false, 0, 0, true, 0, 0⟩
    (fun _ => 10) (fun _ => 7) 5 rfl⟩

/-- Example invocation for C6: cool-down wait toward 100 with a 2 s timeout
(deadline 2000), ambient heaters off, probe stuck at 200. -/
def exTimeoutParams : M199Params := ⟨some 100, false, false, some 2, false, 0, 0, true, 0, 0⟩

/-- C6: with a non-zero armed deadline and an exit predicate that no reading
ever satisfies, as soon as some in-loop time sample `ms k` has reached the
deadline the loop terminates TimedOut within `k + 1` iterations (one
iteration of slack past the deadline, never looping indefinitely), and the
trace carries exactly one timeout diagnostic naming the direction
("cool-down" for Cooling, "warm-up" for Warming). -/
theorem C6_timeout_terminates (p : M199Params) (target : Int) (ts : Nat → ℚ)
    (ms : Nat → Nat) (k fuel : Nat)
    (hdry : p.dryrun = false) (hS : p.S = some target) (hext : p.extruderValid = true)
    (hd : computeDeadline p ≠ 0)
    (hpred : ∀ j, continueCond (is_pinda_cooling p) (ts j) target = true)
    (helap : elapsed (ms k) (computeDeadline p) = true)
    (hk : k < fuel) :
    (M199 p ts ms fuel).outcome = .timedOut ∧
      (M199 p ts ms fuel).iters ≤ k + 1 ∧
      countEv (Event.TimeoutDiag (timeoutMessage (is_pinda_cooling p)))
          (M199 p ts ms fuel).trace = 1 := by
  rw [M199_eq_core p target ts ms fuel hdry hS hext]
  have h := pollLoop_timeout ⟨is_pinda_cooling p, target, computeDeadline p, ts, ms⟩
    hd hpred k fuel 0 p.entryNow ((p.entryNow + 1000) % M32) (by simpa using helap) hk
  unfold M199core finishRun
  split
  · rename_i hfo
    rw [h.1] at hfo
    simp at hfo
  · refine ⟨h.1, ?_, ?_⟩
    · simpa using h.2.1
    · simp [countEv_append, countEv, preEvents, h.2.2]

/-- C6 witness: the cool-down wait of `exTimeoutParams` with every reading
at 200 and every time sample at 3000 ms times out on the first pass with a
single "cool-down" diagnostic. -/
theorem C6_timeout_terminates_witness :
    exTimeoutParams.dryrun = false ∧ exTimeoutParams.S = some 100 ∧
      exTimeoutParams.extruderValid = true ∧ computeDeadline exTimeoutParams ≠ 0 ∧
      (∀ j : Nat, continueCond (is_pinda_cooling exTimeoutParams)
        ((fun _ => (200 : ℚ)) j) 100 = true) ∧
      elapsed ((fun _ => 3000) 0) (computeDeadline exTimeoutParams) = true ∧
      0 < 3 ∧
      ((M199 exTimeoutParams (fun _ => 200) (fun _ => 3000) 3).outcome = .timedOut ∧
        (M199 exTimeoutParams (fun _ => 200) (fun _ => 3000) 3).iters ≤ 0 + 1 ∧
        countEv (Event.TimeoutDiag (timeoutMessage (is_pinda_cooling exTimeoutParams)))
            (M199 exTimeoutParams (fun _ => 200) (fun _ => 3000) 3).trace = 1) :=
  ⟨rfl, rfl, rfl, by decide,
    fun _ => (by decide : continueCond (is_pinda_cooling exTimeoutParams) 200 100 = true),
    by decide, by decide,
    C6_timeout_terminates exTimeoutParams 100 (fun _ => 200) (fun _ => 3000) 0 3
      rfl rfl rfl (by decide)
      (fun _ => (by decide : continueCond (is_pinda_cooling exTimeoutParams) 200 100 = true))
      (by decide) (by decide)⟩

/-- Example invocation for C7's counterexample: `W` forces warm-up, `T1`
arms a 1 s deadline (1000 ms), the probe is already exactly at target on the
first read, but the first in-loop time sample (2000 ms) is already past the
deadline. -/
def exRaceParams : M199Params := ⟨some 50, true, false, some 1, false, 0, 0, true, 0, 0⟩

/-- C7 counterexample: the very first probe reading satisfies the exit
predicate, yet the invocation does not exit in the Completed state — the
timeout break (checked before the while-condition) fires first and the loop
exits TimedOut. -/
theorem C7_counterexample :
    completedPred (is_pinda_cooling exRaceParams) ((fun _ => (50 : ℚ)) 0) 50 = true ∧
      (M199 exRaceParams (fun _ => 50) (fun _ => 2000) 9).outcome = .timedOut ∧
      (M199 exRaceParams (fun _ => 50) (fun _ => 2000) 9).outcome ≠ .completed := by
  refine ⟨by decide, by decide, by decide⟩

/-- C7 (amended): when the very first probe reading already satisfies the
exit predicate AND the timeout break does not fire on that first pass, the
loop still performs exactly one full iteration — with exactly one scheduler
yield and one watchdog reset — and exits in the Completed state. -/
theorem C7_one_iteration_when_already_at_target (p : M199Params) (target : Int)
    (ts : Nat → ℚ) (ms : Nat → Nat) (fuel : Nat)
    (hdry : p.dryrun = false) (hS : p.S = some target) (hext : p.extruderValid = true)
    (hpred : completedPred (is_pinda_cooling p) (ts 0) target = true)
    (hnt : ((computeDeadline p != 0) && elapsed (ms 0) (computeDeadline p)) = false) :
    (M199 p ts ms (fuel + 1)).outcome = .completed ∧
      (M199 p ts ms (fuel + 1)).iters = 1 ∧
      countEv Event.Yield (M199 p ts ms (fuel + 1)).trace = 1 ∧
      countEv Event.WatchdogReset (M199 p ts ms (fuel + 1)).trace = 1 := by
  rw [M199_eq_core p target ts ms (fuel + 1) hdry hS hext]
  have hc : continueCond (is_pinda_cooling p) (ts 0) target = false := by
    have heq := completedPred_eq_not_continueCond (is_pinda_cooling p) (ts 0) target
    rw [hpred] at heq
    simpa using heq.symm
  have hloop : pollLoop ⟨is_pinda_cooling p, target, computeDeadline p, ts, ms⟩
      (fuel + 1) 0 p.entryNow ((p.entryNow + 1000) % M32) =
      ⟨.completed, [Event.Yield, Event.WatchdogReset], 1⟩ := by
    simp [pollLoop, hnt, hc, elapsed_self_plus_1000]
  unfold M199core
  rw [hloop]
  simp [finishRun, countEv_append, countEv, preEvents]

/-- C7 witness: warm-up to 50 with the probe already at 60 and no timeout
armed completes after exactly one iteration with one yield and one watchdog
reset. -/
theorem C7_one_iteration_when_already_at_target_witness :
    completedPred (is_pinda_cooling ⟨some 50, true, false, none, false, 0, 0, true, 0, 0⟩)
        ((fun _ => (60 : ℚ)) 0) 50 = true ∧
      ((computeDeadline ⟨some 50, true, false, none, false, 0, 0, true, 0, 0⟩ != 0) &&
        elapsed ((fun _ => 5) 0)
          (computeDeadline ⟨some 50, true, false, none, false, 0, 0, true, 0, 0⟩)) = false ∧
      ((M199 ⟨some 50, true, false, none, false, 0, 0, true, 0, 0⟩
          (fun _ => 60) (fun _ => 5) (0 + 1)).outcome = .completed ∧
        (M199 ⟨some 50, true, false, none, false, 0, 0, true, 0, 0⟩
          (fun _ => 60) (fun _ => 5) (0 + 1)).iters = 1 ∧
        countEv Event.Yield (M199 ⟨some 50, true, false, none, false, 0, 0, true, 0, 0⟩
          (fun _ => 60) (fun _ => 5) (0 + 1)).trace = 1 ∧
        countEv Event.WatchdogReset (M199 ⟨some 50, true, false, none, false, 0, 0, true, 0, 0⟩
          (fun _ => 60) (fun _ => 5) (0 + 1)).trace = 1) :=
  ⟨by decide, by decide,
    C7_one_iteration_when_already_at_target
      ⟨some 50, true, false, none, false, 0, 0, true, 0, 0⟩ 50
      (fun _ => 60) (fun _ => 5) 0 rfl rfl rfl (by decide) (by decide)⟩

/-! Sanity checks (scenarios of spec §8). -/

example :
    (M199 ⟨some 60, true, false, none, false, 0, 0, true, 0, 0⟩
      (fun i => if i = 0 then 20 else if i = 1 then 40 else 61)
      (fun i => 10 * i) 10) =
    ⟨.completed,
      preEvents false 60 ++
        [.Yield, .WatchdogReset, .Yield, .WatchdogReset, .Yield, .WatchdogReset,
         .ResetStatus, .SetTargetPinda 0],
      3⟩ := by decide
